import Mathlib

/-!
Verification of the SSE MCP session client (`mcp_client_lib/mcp_client.py`).

This file shallowly embeds the `SSEMCPClient` class: JSON values are an
inductive type, the mutable client object is a `ClientState` record, each
Python method becomes a pure function on `ClientState`, exceptions become an
explicit `PyError` channel, and the background SSE-reader task is modelled by
the list of shared-state snapshots it produces (`readerStates`), which the
polling loop inside `connect` samples through a function `Nat → ClientState`
(one sample per 0.1 s poll tick).  The remote server is an oracle: the SSE
stream is a list of raw lines plus a JSON-parsing oracle standing for
`json.loads`, and each HTTP POST/GET is answered by a `PostOutcome`.
Registered notification/state-change callbacks are outside the model (none
registered), matching their defaults of `None`.
-/

/-- JSON values, as produced by `json.loads`: objects are association lists of
string keys (Python dicts). -/
inductive Json where
  | null : Json
  | bool : Bool → Json
  | num : Int → Json
  | str : String → Json
  | arr : List Json → Json
  | obj : List (String × Json) → Json

/-- Python exceptions that the client's code paths can raise.  `notConnected`
is `Exception("Not connected to server")` and `notInitialized` is
`Exception("Client not initialized")` (both are the spec's
`NotConnectedError` class); `httpError` covers network failures,
`raise_for_status` and requests on a closed `httpx` client; `protocolError`
is the `Exception` wrapping a JSON-RPC `error` payload. -/
inductive PyError where
  | attrError : PyError
  | typeError : PyError
  | keyError : PyError
  | jsonDecode : PyError
  | httpError : PyError
  | notConnected : PyError
  | notInitialized : PyError
  | protocolError : PyError
deriving DecidableEq

/-- The `ConnectionState` enum of the client. -/
inductive ConnectionState where
  | disconnected : ConnectionState
  | connecting : ConnectionState
  | connected : ConnectionState
  | error : ConnectionState
deriving DecidableEq

/-- The `Tool` dataclass.  The Python constructor performs no type validation, so
the fields hold arbitrary JSON values taken from the server's reply. -/
structure Tool where
  name : Json
  description : Json
  inputSchema : Json

/-- The `MCPResponse` dataclass: `id`/`result`/`error` are each `None` or a JSON
value. -/
structure MCPResponse where
  id : Option Json
  result : Option Json
  error : Option Json

/-- Outcome of one HTTP request (a POST to the message endpoint or the
health-check GET): the network fails, or the server answers with a status
code and a body (`none` = body that fails JSON parsing). -/
inductive PostOutcome where
  | netError : PostOutcome
  | response : Nat → Option Json → PostOutcome

/-- The mutable fields of an `SSEMCPClient` object.  `inited` is the Python
attribute `self.initialized`; `http_closed` records that `aclose()` was
called on the shared `httpx.AsyncClient`; `sse_task_live` / `tasks_spawned` /
`tasks_cancelled` book-keep the background reader task (`self._sse_task`). -/
structure ClientState where
  server_url : String
  timeout : Nat
  session_id : Option String
  message_endpoint : Option String
  state : ConnectionState
  tools : List Tool
  inited : Bool
  http_closed : Bool
  sse_task_live : Bool
  tasks_spawned : Nat
  tasks_cancelled : Nat

/-! Section: string helpers with Python semantics.

Lean core's `String` functions are avoided in favour of small structurally
recursive definitions over `List Char`, so that every concrete computation
reduces in the kernel.  `pySplit` is Python's `str.split(sep)` for a
non-empty separator: leftmost, non-overlapping. -/

/-- Whether `pat` is a leading prefix of `s` (character lists). -/
def hasLead : List Char → List Char → Bool
  | [], _ => true
  | _ :: _, [] => false
  | a :: as, b :: bs => if a = b then hasLead as bs else false

/-- Split off the first occurrence of `sep`: returns the part before it and
the part after it, or `none` when `sep` does not occur. -/
def splitFirstAux (sep : List Char) : List Char → Option (List Char × List Char)
  | [] => none
  | c :: cs =>
    if hasLead sep (c :: cs) then some ([], (c :: cs).drop sep.length)
    else
      match splitFirstAux sep cs with
      | some (pre, post) => some (c :: pre, post)
      | none => none

/-- Repeated leftmost splitting, fuelled (the fuel strictly exceeds the
number of separator occurrences, so it never runs out). -/
def pySplitAux (sep : List Char) : Nat → List Char → List (List Char)
  | 0, s => [s]
  | fuel + 1, s =>
    match splitFirstAux sep s with
    | none => [s]
    | some (pre, post) => pre :: pySplitAux sep fuel post

/-- Python's `s.split(sep)` for non-empty `sep` (the client only ever splits
on the literals `"sessionId="`, `"&"`, `"?"` and `"="`). -/
def pySplit (s sep : String) : List String :=
  if sep.data.isEmpty then [s]
  else (pySplitAux sep.data (s.data.length + 1) s.data).map (fun l => String.mk l)

/-- Python's `s.startswith(pre)`. -/
def strStarts (s pre : String) : Bool := hasLead pre.data s.data

/-- Python's `s[n:]`. -/
def strDrop (s : String) (n : Nat) : String := String.mk (s.data.drop n)

/-- Python's `s.rstrip("/")`, applied to the server URL in `__init__`. -/
def rstripSlash (s : String) : String :=
  String.mk ((s.data.reverse.dropWhile (fun c => c = '/')).reverse)

/-- Join a list of strings with a separator (used by the spec-side
query-parameter parser). -/
def strIntercalate (sep : String) : List String → String
  | [] => ""
  | [s] => s
  | s :: rest => s ++ sep ++ strIntercalate sep rest

/-- Lookup in an association list with string keys: Python's `dict.get(k)`
(returning `None` when absent). -/
def assocLookup {α : Type} (key : String) : List (String × α) → Option α
  | [] => none
  | (k, v) :: rest => if k = key then some v else assocLookup key rest

/-- Python truthiness of an optional string attribute (`None` and `""` are
falsy): used by `while not self.session_id` and
`if not self.message_endpoint`. -/
def truthyStr : Option String → Bool
  | none => false
  | some s => decide (s ≠ "")

/-- Python truthiness of a JSON value. -/
def Json.truthy : Json → Bool
  | Json.null => false
  | Json.bool b => b
  | Json.num n => decide (n ≠ 0)
  | Json.str s => decide (s ≠ "")
  | Json.arr xs => !xs.isEmpty
  | Json.obj kvs => !kvs.isEmpty

/-- Python truthiness of an optional JSON attribute (`if response.error:`). -/
def jtruthy : Option Json → Bool
  | none => false
  | some j => j.truthy

/-- Whether an optional JSON value equals a given string under Python `==`
(`event.get("method") == "endpoint"`). -/
def jEqStr : Option Json → String → Bool
  | some (Json.str t), s => decide (t = s)
  | _, _ => false

/-- Constructor `SSEMCPClient.__init__` (default timeout 30 s). -/
def initClient (server_url : String) : ClientState :=
  { server_url := rstripSlash server_url
    timeout := 30
    session_id := none
    message_endpoint := none
    state := ConnectionState.disconnected
    tools := []
    inited := false
    http_closed := false
    sse_task_live := false
    tasks_spawned := 0
    tasks_cancelled := 0 }

/-! Section: event handling (`_handle_event`). -/

/-- The `self.session_id` extraction on an `"endpoint"` event
(`uri.split("sessionId=")[1].split("&")[0]`): the text between the first
occurrence of the substring `"sessionId="` in `uri` and the following
`"&"` (or the end of `uri`). -/
def extractSessionId (uri : String) : String :=
  (pySplit ((pySplit uri "sessionId=").getD 1 "") "&").getD 0 ""

/-- The two session-field assignments performed by the `"endpoint"` branch of
`_handle_event`. -/
def sessionUpdate (c : ClientState) (sid : String) : ClientState :=
  { c with
    session_id := some sid
    message_endpoint := some (c.server_url ++ "/messages?sessionId=" ++ sid) }

/-- Membership test `"sessionId=" in xs` for a JSON array value of `uri`
(Python list membership). -/
def jIsSessionMarker : Json → Bool
  | Json.str s => decide (s = "sessionId=")
  | _ => false

/-- Method `SSEMCPClient._handle_event(event)`: returns the updated shared state and
the exception the branch raises, if any.  All raising paths raise before any
field assignment, so the returned state is the input state there.  The
registered handlers (`on_notification`) are `None` in this model.  A
non-string `uri` raises from `"sessionId=" in uri` (TypeError for scalars)
or from `uri.split` (AttributeError) when the membership test succeeds;
a non-dict `params` raises AttributeError from `params.get`. -/
def handle_event (c : ClientState) (event : List (String × Json)) :
    ClientState × Option PyError :=
  if jEqStr (assocLookup "method" event) "endpoint" then
    match assocLookup "params" event with
    | none => (c, none)
    | some (Json.obj ps) =>
      match assocLookup "uri" ps with
      | none => (c, none)
      | some (Json.str uri) =>
        if 2 ≤ (pySplit uri "sessionId=").length then
          (sessionUpdate c (extractSessionId uri), none)
        else (c, none)
      | some (Json.arr xs) =>
        (c, if xs.any jIsSessionMarker then some PyError.attrError else none)
      | some (Json.obj kvs) =>
        (c, if kvs.any (fun kv => decide (kv.1 = "sessionId=")) then
              some PyError.attrError
            else none)
      | some _ => (c, some PyError.typeError)
    | some _ => (c, some PyError.attrError)
  else if jEqStr (assocLookup "method" event) "notifications/message" then
    match assocLookup "params" event with
    | none => (c, none)
    | some (Json.obj ps) =>
      match assocLookup "level" ps with
      | none => (c, none)
      | some (Json.str _) => (c, none)
      | some _ => (c, some PyError.attrError)
    | some _ => (c, some PyError.attrError)
  else (c, none)

/-- The exact condition under which `_handle_event` assigns the session
fields: the event's `method` equals `"endpoint"`, its `params` is a dict
whose `uri` is a string, and `"sessionId=" in uri` holds. -/
def eventSetsSession (ev : List (String × Json)) : Bool :=
  jEqStr (assocLookup "method" ev) "endpoint" &&
    (match assocLookup "params" ev with
     | some (Json.obj ps) =>
       match assocLookup "uri" ps with
       | some (Json.str uri) => decide (2 ≤ (pySplit uri "sessionId=").length)
       | _ => false
     | _ => false)

/-- The `uri` string carried by an event (empty string when absent), matching
`event.get("params", {}).get("uri", "")` on the shapes where no exception is
raised. -/
def eventUri (ev : List (String × Json)) : String :=
  match assocLookup "params" ev with
  | some (Json.obj ps) =>
    match assocLookup "uri" ps with
    | some (Json.str u) => u
    | _ => ""
  | _ => ""

/-- A well-formed `"endpoint"` SSE event with the given `uri`, as emitted by
the server (`{"method": "endpoint", "params": {"uri": ...}}`). -/
def endpointEvent (uri : String) : List (String × Json) :=
  [("method", Json.str "endpoint"), ("params", Json.obj [("uri", Json.str uri)])]

/-! Section: the SSE reader (`_handle_sse_events` / `_process_sse_events`). -/

/-- One line of the SSE stream, as consumed by the reader loop: lines without
the `"data: "` prefix are ignored; a `"data: "` line whose remainder fails
`json.loads` (`parse` returns `none`) is logged and skipped; a parsed
non-dict raises AttributeError in `_handle_event`, which kills the reader
task and drives the state to `error` (via `_process_sse_events`'s handler),
as does any exception out of `_handle_event`.  Returns the new shared state
and whether the reader is still alive. -/
def processLine (parse : String → Option Json) (c : ClientState) (l : String) :
    ClientState × Bool :=
  if strStarts l "data: " then
    match parse (strDrop l 6) with
    | none => (c, true)
    | some (Json.obj ev) =>
      match handle_event c ev with
      | (c2, none) => (c2, true)
      | (c2, some _) => ({ c2 with state := ConnectionState.error }, false)
    | some _ => ({ c with state := ConnectionState.error }, false)
  else (c, true)

/-- The reader's final shared state after consuming a whole stream of lines
(stopping early when a dispatch error kills the task). -/
def runReaderLines (parse : String → Option Json) :
    ClientState → List String → ClientState
  | c, [] => c
  | c, l :: ls =>
    let p := processLine parse c l
    if p.2 then runReaderLines parse p.1 ls else p.1

/-- Every shared-state snapshot the reader produces while consuming the
lines, starting from `c` (the trajectory the polling loop can observe). -/
def readerTrace (parse : String → Option Json) :
    ClientState → List String → List ClientState
  | c, [] => [c]
  | c, l :: ls =>
    let p := processLine parse c l
    c :: (if p.2 then readerTrace parse p.1 ls else [p.1])

/-- The full set of snapshots of the background task spawned by `connect`:
`_handle_sse_events` first sets `Connecting`; opening the streaming GET on a
closed client, or a failed stream request (`streamOk = false`, covering
network failure and `raise_for_status`), raises and drives the state to
`error`; on success the state becomes `Connected` and the lines are
dispatched. -/
def readerStates (parse : String → Option Json) (streamOk : Bool)
    (c : ClientState) (lines : List String) : List ClientState :=
  let c1 : ClientState := { c with state := ConnectionState.connecting }
  if c.http_closed || !streamOk then
    [c1, { c1 with state := ConnectionState.error }]
  else
    c1 :: readerTrace parse { c1 with state := ConnectionState.connected } lines

/-! ### `connect` / `disconnect` -/

/-- The `asyncio.create_task(self._process_sse_events())` step of `connect`:
a new reader task starts; a previously live task is neither cancelled nor
awaited (only the `self._sse_task` reference is overwritten). -/
def spawnReader (c : ClientState) : ClientState :=
  { c with sse_task_live := true, tasks_spawned := c.tasks_spawned + 1 }

/-- The polling loop of `connect` (`while not self.session_id and waited <
max_wait`): reads the shared state once per 0.1 s tick; returns the state
observed when `session_id` first becomes truthy, or the state at the final
re-check after the wait budget (100 sleeps for `max_wait = 10`) runs out. -/
def connectPoll (σ : Nat → ClientState) : Nat → Nat → ClientState
  | t, 0 => σ t
  | t, fuel + 1 =>
    if truthyStr (σ t).session_id then σ t else connectPoll σ (t + 1) fuel

/-- Method `SSEMCPClient.connect()` given the shared-state samples `σ` of the reader
task it spawned: returns `True` with the observed state if a truthy
`session_id` appeared within the wait budget; otherwise the internal
`Exception("Failed to receive session ID from server")` is caught,
`_update_state(ERROR)` runs and `False` is returned (the exception never
escapes). -/
def connect (σ : Nat → ClientState) : Bool × ClientState :=
  if truthyStr (connectPoll σ 0 100).session_id then (true, connectPoll σ 0 100)
  else (false, { connectPoll σ 0 100 with state := ConnectionState.error })

/-- Method `SSEMCPClient.disconnect()`: cancels the reader task when live (awaiting
it, with `CancelledError` swallowed), closes the HTTP client (`aclose` is
idempotent), resets the state to `Disconnected` and clears
`session_id`/`message_endpoint`/`initialized`/`tools`.  Total: no path
raises. -/
def disconnect (c : ClientState) : ClientState :=
  { c with
    sse_task_live := false
    tasks_cancelled :=
      if c.sse_task_live then c.tasks_cancelled + 1 else c.tasks_cancelled
    http_closed := true
    state := ConnectionState.disconnected
    session_id := none
    message_endpoint := none
    inited := false
    tools := [] }

/-! Section: the RPC layer (`_send_request`, the Python `initialize` method
modelled as `clientInit`, `list_tools`, `call_tool`, `health_check`). -/

/-- Method `SSEMCPClient._send_request(method, params)` with the server's answer to
the single POST given as `resp`.  Raises `Exception("Not connected to
server")` when `message_endpoint` is falsy; a POST on a closed client raises
`RuntimeError`; `raise_for_status` raises outside 2xx; `response.json()`
raises on a malformed body; a non-dict body raises AttributeError from
`.get`.  Otherwise the `MCPResponse` fields are copied verbatim from the
body — nothing enforces that `result` and `error` exclude each other. -/
def send_request (c : ClientState) (resp : PostOutcome)
    (_method : String) (_params : Json) : Except PyError MCPResponse :=
  if truthyStr c.message_endpoint = false then Except.error PyError.notConnected
  else if c.http_closed then Except.error PyError.httpError
  else
    match resp with
    | PostOutcome.netError => Except.error PyError.httpError
    | PostOutcome.response status body =>
      if 200 ≤ status ∧ status < 300 then
        match body with
        | none => Except.error PyError.jsonDecode
        | some (Json.obj kvs) =>
          Except.ok
            { id := assocLookup "id" kvs
              result := assocLookup "result" kvs
              error := assocLookup "error" kvs }
        | some _ => Except.error PyError.attrError
      else Except.error PyError.httpError

/-- The params dict sent by the Python `initialize` method. -/
def initParams : Json :=
  Json.obj
    [("protocolVersion", Json.str "2024-11-05"),
     ("capabilities", Json.obj [("tools", Json.obj [])]),
     ("clientInfo",
      Json.obj [("name", Json.str "sse-mcp-client"), ("version", Json.str "1.0.0")])]

/-- The Python `initialize()` method (named `clientInit` here): one
`"initialize"` request; EVERY exception out of `_send_request` is caught by
its `except Exception` and converted to `False`, a truthy `error` field also
yields `False`; only on success is `self.initialized` set. -/
def clientInit (c : ClientState) (resp : PostOutcome) : Bool × ClientState :=
  match send_request c resp "initialize" initParams with
  | Except.error _ => (false, c)
  | Except.ok r =>
    if jtruthy r.error then (false, c) else (true, { c with inited := true })

/-- Lookups `tool["name"]` / `tool["description"]` / `tool["inputSchema"]` on one
element of the server's `tools` array (KeyError when a key is missing,
TypeError when the element is not a dict; no type validation of the
values). -/
def parseTool : Json → Except PyError Tool
  | Json.obj kvs =>
    match assocLookup "name" kvs with
    | none => Except.error PyError.keyError
    | some n =>
      match assocLookup "description" kvs with
      | none => Except.error PyError.keyError
      | some d =>
        match assocLookup "inputSchema" kvs with
        | none => Except.error PyError.keyError
        | some s => Except.ok { name := n, description := d, inputSchema := s }
  | _ => Except.error PyError.typeError

/-- The list comprehension of `list_tools`, left to right, first exception
wins. -/
def parseToolList : List Json → Except PyError (List Tool)
  | [] => Except.ok []
  | j :: rest =>
    match parseTool j with
    | Except.error e => Except.error e
    | Except.ok t =>
      match parseToolList rest with
      | Except.error e => Except.error e
      | Except.ok ts => Except.ok (t :: ts)

/-- Method `SSEMCPClient.list_tools()`: gated on `self.initialized` (raising before
any request is built); a truthy `error` field raises the wrapping
`Exception`; `response.result.get("tools", [])` raises AttributeError when
`result` is `None` or not a dict (a non-list `tools` value is approximated
by TypeError); on success the cache `self.tools` is replaced wholesale. -/
def list_tools (c : ClientState) (resp : PostOutcome) :
    Except PyError (List Tool × ClientState) :=
  if c.inited = false then Except.error PyError.notInitialized
  else
    match send_request c resp "tools/list" (Json.obj []) with
    | Except.error e => Except.error e
    | Except.ok r =>
      if jtruthy r.error then Except.error PyError.protocolError
      else
        match r.result with
        | none => Except.error PyError.attrError
        | some (Json.obj kvs) =>
          match (match assocLookup "tools" kvs with
                 | some (Json.arr js) => parseToolList js
                 | some _ => Except.error PyError.typeError
                 | none => Except.ok []) with
          | Except.error e => Except.error e
          | Except.ok ts => Except.ok (ts, { c with tools := ts })
        | some _ => Except.error PyError.attrError

/-- Method `SSEMCPClient.call_tool(tool_name, arguments)`: gated on
`self.initialized`; a truthy `error` field raises the wrapping `Exception`;
otherwise `response.result` is returned as-is (`None` when absent). -/
def call_tool (c : ClientState) (resp : PostOutcome)
    (tool_name : String) (arguments : Json) : Except PyError (Option Json) :=
  if c.inited = false then Except.error PyError.notInitialized
  else
    match send_request c resp "tools/call"
        (Json.obj [("name", Json.str tool_name), ("arguments", arguments)]) with
    | Except.error e => Except.error e
    | Except.ok r =>
      if jtruthy r.error then Except.error PyError.protocolError
      else Except.ok r.result

/-- The body of `health_check`'s `try` block: GET `/health` (raising on a
closed client or network failure), `raise_for_status`, `response.json()`
(raising on a malformed body), then `data.get("status") == "healthy"`
(AttributeError on a non-dict body). -/
def healthBody (c : ClientState) (resp : PostOutcome) : Except PyError Bool :=
  if c.http_closed then Except.error PyError.httpError
  else
    match resp with
    | PostOutcome.netError => Except.error PyError.httpError
    | PostOutcome.response status body =>
      if 200 ≤ status ∧ status < 300 then
        match body with
        | none => Except.error PyError.jsonDecode
        | some (Json.obj kvs) =>
          Except.ok
            (match assocLookup "status" kvs with
             | some (Json.str v) => decide (v = "healthy")
             | _ => false)
        | some _ => Except.error PyError.attrError
      else Except.error PyError.httpError

/-- Method `SSEMCPClient.health_check()`: the `except Exception` clause converts
every failure of the body to `False`, so the operation is total. -/
def health_check (c : ClientState) (resp : PostOutcome) : Bool :=
  match healthBody c resp with
  | Except.ok b => b
  | Except.error _ => false

/-! Section: spec-side comparators.

These definitions follow the specification's words, not the code, and exist
to be compared with the code-derived definitions above (refinement-style
claims). -/

/-- Spec-side query-parameter parser, following the spec's words "parse out a
`sessionId` query parameter from it": the query component is the part of the
URI after the first `?`, parameters are separated by `&`, and each parameter
is `key=value` split at the first `=`. -/
def queryParams (uri : String) : List (String × String) :=
  match pySplit uri "?" with
  | [] => []
  | [_] => []
  | _ :: rest =>
    let query := strIntercalate "?" rest
    (pySplit query "&").filterMap fun pair =>
      match pySplit pair "=" with
      | [] => none
      | [_] => none
      | k :: vs => some (k, strIntercalate "=" vs)

/-- The value of the `sessionId` query parameter of a URI, when present. -/
def sessionIdParam (uri : String) : Option String :=
  assocLookup "sessionId" (queryParams uri)

/-- Spec-side description of `health_check`'s success condition: the GET of
`/health` succeeds (client open, network up, 2xx) with a JSON-object body
whose `status` field equals `"healthy"`. -/
def healthCheckSpec (c : ClientState) (resp : PostOutcome) : Bool :=
  if c.http_closed then false
  else
    match resp with
    | PostOutcome.netError => false
    | PostOutcome.response status body =>
      if 200 ≤ status ∧ status < 300 then
        match body with
        | some (Json.obj kvs) =>
          (match assocLookup "status" kvs with
           | some (Json.str v) => decide (v = "healthy")
           | _ => false)
        | _ => false
      else false


/-! Section: helper lemmas. -/

/-- When the event is not a session-setting `"endpoint"` frame, every branch
of `_handle_event` returns with the shared state untouched (the raising
branches raise before any assignment). -/
theorem handle_event_not_sets (c : ClientState) (ev : List (String × Json))
    (h : eventSetsSession ev = false) : (handle_event c ev).1 = c := by
  unfold handle_event
  unfold eventSetsSession at h
  split
  · rename_i hm
    rw [hm, Bool.true_and] at h
    split <;> simp_all
    split <;> simp_all
    rw [if_neg (Nat.not_le.mpr h)]
  · split
    · split
      · rfl
      · split <;> rfl
      · rfl
    · rfl

/-- On a session-setting `"endpoint"` frame, `_handle_event` performs exactly
the two session-field assignments with the split-extracted session id. -/
theorem handle_event_sets (c : ClientState) (ev : List (String × Json))
    (h : eventSetsSession ev = true) :
    handle_event c ev = (sessionUpdate c (extractSessionId (eventUri ev)), none) := by
  unfold eventSetsSession at h
  rw [Bool.and_eq_true] at h
  obtain ⟨hm, hrest⟩ := h
  unfold handle_event eventUri
  rw [hm]
  simp only [if_true]
  split <;> simp_all
  split <;> simp_all

/-- A `"data: "` line whose JSON parses to a session-setting `"endpoint"`
event — the only kind of line whose dispatch changes the session fields. -/
def isEndpointFrame (parse : String → Option Json) (l : String) : Bool :=
  strStarts l "data: " &&
    (match parse (strDrop l 6) with
     | some (Json.obj ev) => eventSetsSession ev
     | _ => false)

/-- Dispatching a line that is not a session-setting endpoint frame leaves
`session_id` and `message_endpoint` unchanged. -/
theorem processLine_session (parse : String → Option Json) (c : ClientState)
    (l : String) (h : isEndpointFrame parse l = false) :
    (processLine parse c l).1.session_id = c.session_id ∧
    (processLine parse c l).1.message_endpoint = c.message_endpoint := by
  unfold processLine
  unfold isEndpointFrame at h
  split
  · rename_i hs
    rw [hs, Bool.true_and] at h
    split
    · exact ⟨rfl, rfl⟩
    · rename_i ev heq
      simp only [heq] at h
      have hc := handle_event_not_sets c ev h
      split
      · rename_i c2 heq2
        rw [heq2] at hc
        exact hc ▸ ⟨rfl, rfl⟩
      · rename_i c2 e heq2
        rw [heq2] at hc
        exact hc ▸ ⟨rfl, rfl⟩
    · exact ⟨rfl, rfl⟩
  · exact ⟨rfl, rfl⟩

/-- Predicate preservation along the reader's trajectory. -/
theorem readerTrace_all (parse : String → Option Json) (P : ClientState → Prop) :
    ∀ lines : List String,
      (∀ c l, l ∈ lines → P c → P (processLine parse c l).1) →
      ∀ c, P c → ∀ x ∈ readerTrace parse c lines, P x := by
  intro lines
  induction lines with
  | nil =>
    intro _ c hc x hx
    simp only [readerTrace, List.mem_singleton] at hx
    exact hx ▸ hc
  | cons l ls ih =>
    intro hP c hc x hx
    have hpl : P (processLine parse c l).1 := hP c l (List.mem_cons_self l ls) hc
    simp only [readerTrace] at hx
    rcases List.mem_cons.mp hx with hx | hx
    · exact hx ▸ hc
    · by_cases hp : (processLine parse c l).2 = true
      · rw [if_pos hp] at hx
        exact ih (fun c' l' hl' => hP c' l' (List.mem_cons_of_mem l hl')) _ hpl x hx
      · rw [if_neg hp] at hx
        simp only [List.mem_singleton] at hx
        exact hx ▸ hpl

/-- Predicate preservation over all snapshots of the spawned reader task,
for predicates insensitive to the `state` field. -/
theorem readerStates_all (parse : String → Option Json) (streamOk : Bool)
    (P : ClientState → Prop)
    (hst : ∀ c s, P c → P { c with state := s })
    (lines : List String)
    (hP : ∀ c l, l ∈ lines → P c → P (processLine parse c l).1)
    (c : ClientState) (hc : P c) :
    ∀ x ∈ readerStates parse streamOk c lines, P x := by
  unfold readerStates
  split
  · intro x hx
    rcases List.mem_cons.mp hx with hx | hx
    · exact hx ▸ hst c _ hc
    · simp only [List.mem_singleton] at hx
      exact hx ▸ hst _ _ (hst c _ hc)
  · intro x hx
    rcases List.mem_cons.mp hx with hx | hx
    · exact hx ▸ hst c _ hc
    · exact readerTrace_all parse P lines hP _ (hst _ _ (hst c _ hc)) x hx

/-- The session-consistency invariant: whenever `session_id` is set,
`message_endpoint` is the message path of the server URL with that session
id attached as the `sessionId` query parameter. -/
def sessInv (c : ClientState) : Prop :=
  ∀ sid, c.session_id = some sid →
    c.message_endpoint = some (c.server_url ++ "/messages?sessionId=" ++ sid)

/-- Lemma: `_handle_event` preserves session consistency. -/
theorem sessInv_handle_event (c : ClientState) (ev : List (String × Json))
    (h : sessInv c) : sessInv (handle_event c ev).1 := by
  by_cases hs : eventSetsSession ev = true
  · rw [handle_event_sets c ev hs]
    intro sid h1
    injection h1 with h1
    exact h1 ▸ rfl
  · rw [handle_event_not_sets c ev (Bool.not_eq_true _ ▸ hs)]
    exact h

/-- Every value the polling loop can return is one of the sampled shared
states. -/
theorem connectPoll_mem (σ : Nat → ClientState) :
    ∀ fuel t, ∃ k, connectPoll σ t fuel = σ k := by
  intro fuel
  induction fuel with
  | zero => intro t; exact ⟨t, rfl⟩
  | succ n ih =>
    intro t
    unfold connectPoll
    by_cases h : truthyStr (σ t).session_id = true
    · rw [if_pos h]; exact ⟨t, rfl⟩
    · rw [if_neg h]; exact ih (t + 1)

/-- The polling loop only inspects the first `fuel + 1` samples: `connect`'s
wait is bounded by the 100-sleep budget. -/
theorem connectPoll_local (σ τ : Nat → ClientState) :
    ∀ fuel t, (∀ k, k ≤ t + fuel → σ k = τ k) →
      connectPoll σ t fuel = connectPoll τ t fuel := by
  intro fuel
  induction fuel with
  | zero => intro t h; exact h t (Nat.le_add_right t 0)
  | succ n ih =>
    intro t h
    unfold connectPoll
    rw [h t (Nat.le_add_right t (n + 1))]
    by_cases hc : truthyStr (τ t).session_id = true
    · rw [if_pos hc, if_pos hc]
    · rw [if_neg hc, if_neg hc]
      exact ih (t + 1) (fun k hk => h k (by omega))

/-- When no sampled state ever holds a truthy `session_id`, `connect` fails
and drives the state machine to `Error`. -/
theorem connect_none (σ : Nat → ClientState)
    (h : ∀ k, truthyStr (σ k).session_id = false) :
    connect σ = (false, { connectPoll σ 0 100 with state := ConnectionState.error }) := by
  unfold connect
  obtain ⟨k, hk⟩ := connectPoll_mem σ 100 0
  have hf : truthyStr (connectPoll σ 0 100).session_id = false := by rw [hk]; exact h k
  simp only [hf]
  rfl

/-- Lemma: `connect` returns `True` exactly when the polled state holds a truthy
session id, and then returns that state unchanged. -/
theorem connect_true (σ : Nat → ClientState) (h : (connect σ).1 = true) :
    (connect σ).2 = connectPoll σ 0 100 ∧
    truthyStr (connectPoll σ 0 100).session_id = true := by
  unfold connect at h ⊢
  by_cases htr : truthyStr (connectPoll σ 0 100).session_id = true
  · rw [if_pos htr]
    exact ⟨rfl, htr⟩
  · rw [if_neg htr] at h
    exact absurd h (by simp)

/-- When the very first sample already holds a truthy session id, `connect`
returns immediately with it. -/
theorem connect_of_truthy (σ : Nat → ClientState)
    (h : truthyStr (σ 0).session_id = true) : connect σ = (true, σ 0) := by
  have hp : connectPoll σ 0 100 = σ 0 := by
    show connectPoll σ 0 (Nat.succ 99) = σ 0
    unfold connectPoll
    rw [if_pos h]
  unfold connect
  rw [hp, if_pos h]

/-- String concatenation acts on the underlying character lists. -/
theorem strAppendData (a b : String) : (a ++ b).data = a.data ++ b.data := by
  cases a; cases b; rfl

/-- The computed message endpoint is a non-empty (truthy) string. -/
theorem truthy_msg (u sid : String) :
    truthyStr (some (u ++ "/messages?sessionId=" ++ sid)) = true := by
  unfold truthyStr
  apply decide_eq_true
  intro hemp
  have hd : (u ++ "/messages?sessionId=" ++ sid).data = [] := by rw [hemp]
  rw [strAppendData, strAppendData] at hd
  rcases List.append_eq_nil.mp hd with ⟨h1, _⟩
  rcases List.append_eq_nil.mp h1 with ⟨_, h2⟩
  exact absurd h2 (by decide)

/-- Dispatching any line preserves session consistency. -/
theorem processLine_sessInv (parse : String → Option Json) (c : ClientState)
    (l : String) (h : sessInv c) : sessInv (processLine parse c l).1 := by
  unfold processLine
  split
  · split
    · exact h
    · rename_i ev heq
      split
      · rename_i c2 heq2
        have hh := sessInv_handle_event c ev h
        rw [heq2] at hh
        exact hh
      · rename_i c2 e heq2
        have hh := sessInv_handle_event c ev h
        rw [heq2] at hh
        exact fun sid hs => hh sid hs
    · exact fun sid hs => h sid hs
  · exact h

/-- Snapshots of a reader spawned on a closed HTTP client never change the
session id (the stream request fails before any line is read). -/
theorem readerStates_closed_session (parse : String → Option Json)
    (streamOk : Bool) (c : ClientState) (lines : List String)
    (hcl : c.http_closed = true) :
    ∀ x ∈ readerStates parse streamOk c lines, x.session_id = c.session_id := by
  intro x hx
  unfold readerStates at hx
  rw [hcl] at hx
  simp only [Bool.true_or, if_true] at hx
  rcases List.mem_cons.mp hx with hx | hx
  · exact hx ▸ rfl
  · simp only [List.mem_singleton] at hx
    exact hx ▸ rfl

/-! Section: claim theorems. -/

/-- C3: every call to `list_tools()` or `call_tool(name, arguments)` made
while the internal initialized flag is false fails with the
client-not-initialized error (the spec's `NotConnectedError`), and does so
for every possible server behaviour `resp` — i.e. without sending a request
to the server. -/
theorem c3_rpc_gate (c : ClientState) (resp : PostOutcome)
    (tool_name : String) (arguments : Json) (h : c.inited = false) :
    list_tools c resp = Except.error PyError.notInitialized ∧
    call_tool c resp tool_name arguments = Except.error PyError.notInitialized := by
  unfold list_tools call_tool
  rw [h]
  exact ⟨rfl, rfl⟩

/-- Witness for C3 at a freshly constructed client and arbitrary concrete
arguments. -/
theorem c3_rpc_gate_witness :
    list_tools (initClient "http://s") PostOutcome.netError =
      Except.error PyError.notInitialized ∧
    call_tool (initClient "http://s") PostOutcome.netError "add_numbers"
        (Json.obj [("a", Json.num 10), ("b", Json.num 5)]) =
      Except.error PyError.notInitialized :=
  c3_rpc_gate (initClient "http://s") PostOutcome.netError "add_numbers"
    (Json.obj [("a", Json.num 10), ("b", Json.num 5)]) rfl

/-- C4: `health_check` never raises (it is total by construction, every
exception of its body being converted to `False`); it returns `false` for an
unreachable server, a 500 response and a malformed JSON body, and it returns
`true` exactly under the spec-side success condition `healthCheckSpec` (GET
of `/health` succeeds with a JSON object whose `status` equals
`"healthy"`). -/
theorem c4_health_check_total (c : ClientState) (resp : PostOutcome) :
    health_check c resp = healthCheckSpec c resp ∧
    health_check c PostOutcome.netError = false ∧
    (∀ b, health_check c (PostOutcome.response 500 b) = false) ∧
    (∀ s, health_check c (PostOutcome.response s none) = false) := by
  have hne : ∀ r, healthBody c r = Except.error PyError.httpError →
      health_check c r = false := by
    intro r hr
    unfold health_check
    rw [hr]
  refine ⟨?_, ?_, ?_, ?_⟩
  · unfold health_check healthBody healthCheckSpec
    by_cases hcl : c.http_closed = true
    · simp [hcl]
    · simp only [Bool.not_eq_true] at hcl
      simp only [hcl, Bool.false_eq_true, if_false]
      cases resp with
      | netError => rfl
      | response status body =>
        by_cases hst : 200 ≤ status ∧ status < 300
        · cases body with
          | none => simp [hst]
          | some j => cases j <;> simp [hst]
        · simp [hst]
  · unfold health_check healthBody
    by_cases hcl : c.http_closed = true <;> simp [hcl]
  · intro b
    unfold health_check healthBody
    by_cases hcl : c.http_closed = true <;> simp [hcl]
  · intro s
    unfold health_check healthBody
    by_cases hcl : c.http_closed = true
    · simp [hcl]
    · simp only [Bool.not_eq_true] at hcl
      simp only [hcl, Bool.false_eq_true, if_false]
      by_cases hst : 200 ≤ s ∧ s < 300
      · simp [hst]
      · simp [hst]

/-- C6: `disconnect` is total (this model of it is a plain function — every
Python path, including double disconnection and cancellation of a mid-read
task, returns without raising), idempotent, and leaves the client
`Disconnected` with session id, message endpoint, tool cache and initialized
flag cleared. -/
theorem c6_disconnect_total (c : ClientState) :
    disconnect (disconnect c) = disconnect c ∧
    (disconnect c).state = ConnectionState.disconnected ∧
    (disconnect c).session_id = none ∧
    (disconnect c).message_endpoint = none ∧
    (disconnect c).tools = [] ∧
    (disconnect c).inited = false :=
  ⟨rfl, rfl, rfl, rfl, rfl, rfl⟩

/-- Connected client used by the C7 counterexample. -/
def c7client : ClientState :=
  { initClient "http://s" with
    session_id := some "x"
    message_endpoint := some "http://s/messages?sessionId=x"
    state := ConnectionState.connected }

/-- A well-formed 200 response whose JSON body carries BOTH `result` and
`error`. -/
def c7resp : PostOutcome :=
  PostOutcome.response 200
    (some (Json.obj
      [("id", Json.str "1"), ("result", Json.obj [("ok", Json.bool true)]),
       ("error", Json.obj [("message", Json.str "boom")])]))

/-- The `MCPResponse` value `_send_request` produces for `c7resp`. -/
def c7out : MCPResponse :=
  { id := some (Json.str "1")
    result := some (Json.obj [("ok", Json.bool true)])
    error := some (Json.obj [("message", Json.str "boom")]) }

/-- C7 counterexample: `_send_request` copies whatever the body holds, so a
body containing both `result` and `error` yields a response value with both
present — "exactly one of result and error is present" is false. -/
theorem c7_counterexample :
    send_request c7client c7resp "tools/call" (Json.obj []) = Except.ok c7out ∧
    c7out.result.isSome = true ∧ c7out.error.isSome = true :=
  ⟨rfl, rfl, rfl⟩

/-- C7 amended: on a successful POST (endpoint set, client open, 2xx status,
JSON-object body) the response's `id`/`result`/`error` are exactly the
body's `id`/`result`/`error` fields; `_send_request` enforces no exclusivity
between them — exactly one of `result`/`error` is present precisely when the
server's body contains exactly one of those keys. -/
theorem c7_amended (c : ClientState) (st : Nat) (kvs : List (String × Json))
    (m : String) (p : Json)
    (h1 : truthyStr c.message_endpoint = true) (h2 : c.http_closed = false)
    (h3 : 200 ≤ st ∧ st < 300) :
    send_request c (PostOutcome.response st (some (Json.obj kvs))) m p =
      Except.ok
        { id := assocLookup "id" kvs
          result := assocLookup "result" kvs
          error := assocLookup "error" kvs } := by
  unfold send_request
  rw [h1, h2]
  simp only [Bool.true_eq_false, if_false, Bool.false_eq_true, if_pos h3]

/-- Witness for C7's amended theorem at the counterexample inputs. -/
theorem c7_amended_witness :
    send_request c7client c7resp "tools/call" (Json.obj []) =
      Except.ok
        { id := assocLookup "id"
            [("id", Json.str "1"), ("result", Json.obj [("ok", Json.bool true)]),
             ("error", Json.obj [("message", Json.str "boom")])]
          result := assocLookup "result"
            [("id", Json.str "1"), ("result", Json.obj [("ok", Json.bool true)]),
             ("error", Json.obj [("message", Json.str "boom")])]
          error := assocLookup "error"
            [("id", Json.str "1"), ("result", Json.obj [("ok", Json.bool true)]),
             ("error", Json.obj [("message", Json.str "boom")])] } :=
  c7_amended c7client 200
    [("id", Json.str "1"), ("result", Json.obj [("ok", Json.bool true)]),
     ("error", Json.obj [("message", Json.str "boom")])]
    "tools/call" (Json.obj []) (by decide) rfl (by omega)

/-- Fresh unconnected client for the C8 counterexample. -/
def c8fresh : ClientState := initClient "http://s"

/-- A healthy-looking server reply (never reached, since no request is
sent). -/
def c8resp : PostOutcome :=
  PostOutcome.response 200
    (some (Json.obj [("id", Json.str "1"), ("result", Json.obj [])]))

/-- C8 counterexample: with no prior `connect()` (message endpoint unset)
the Python `initialize()` does NOT fail with `NotConnectedError`: the
not-connected exception raised inside `_send_request` is swallowed by
`initialize`'s `except Exception`, and the call returns plain `False` with
the state unchanged. -/
theorem c8_counterexample :
    clientInit c8fresh c8resp = (false, c8fresh) ∧
    send_request c8fresh c8resp "initialize" initParams =
      Except.error PyError.notConnected :=
  ⟨rfl, rfl⟩

/-- C8 amended: `initialize()` invoked when `message_endpoint` is unset
returns failure (`False`) — the internal `NotConnectedError` from
`_sendRequest` is caught, not propagated — without sending a request; and on
a server-side error response it likewise returns `False` rather than
raising; in both cases the connection state (indeed the whole client state)
is unchanged. -/
theorem c8_amended (c : ClientState) (resp : PostOutcome) :
    (truthyStr c.message_endpoint = false → clientInit c resp = (false, c)) ∧
    (∀ r, send_request c resp "initialize" initParams = Except.ok r →
      jtruthy r.error = true → clientInit c resp = (false, c)) := by
  constructor
  · intro h
    unfold clientInit send_request
    rw [h]
    rfl
  · intro r hr htr
    unfold clientInit
    rw [hr]
    simp only [htr, if_true]

/-- Connected client for the C8 amended witness. -/
def c8conn : ClientState :=
  { initClient "http://s" with
    session_id := some "x"
    message_endpoint := some "http://s/messages?sessionId=x"
    state := ConnectionState.connected }

/-- A server-side error reply to `initialize`. -/
def c8errResp : PostOutcome :=
  PostOutcome.response 200
    (some (Json.obj [("id", Json.str "1"),
                     ("error", Json.obj [("message", Json.str "nope")])]))

/-- Witness for C8's amended theorem: both the unconnected case and the
server-error case return `(False, unchanged state)`. -/
theorem c8_amended_witness :
    clientInit c8fresh PostOutcome.netError = (false, c8fresh) ∧
    clientInit c8conn c8errResp = (false, c8conn) :=
  ⟨(c8_amended c8fresh PostOutcome.netError).1 rfl,
   (c8_amended c8conn c8errResp).2
     { id := some (Json.str "1"), result := none,
       error := some (Json.obj [("message", Json.str "nope")]) } rfl rfl⟩

/-- C2: if the background reader never receives a session-setting endpoint
frame (so `session_id` is never populated), `connect()` returns failure and
transitions the state machine to `Error` — the internal handshake-timeout
exception (the spec's `ConnectionError`) is surfaced as the failed return,
not raised to the caller; and the wait is bounded: `connect` only ever
inspects the first 101 shared-state samples (100 sleeps of 0.1 s = the
default ~10 s budget), so it cannot hang. -/
theorem c2_connect_timeout (parse : String → Option Json) (streamOk : Bool)
    (c : ClientState) (lines : List String) (σ : Nat → ClientState)
    (h0 : c.session_id = none)
    (hσ : ∀ k, σ k ∈ readerStates parse streamOk (spawnReader c) lines)
    (hln : ∀ l ∈ lines, isEndpointFrame parse l = false) :
    (connect σ).1 = false ∧ (connect σ).2.state = ConnectionState.error ∧
    (∀ τ : Nat → ClientState, (∀ k, k ≤ 100 → τ k = σ k) → connect τ = connect σ) := by
  have hall : ∀ x ∈ readerStates parse streamOk (spawnReader c) lines,
      x.session_id = none := by
    apply readerStates_all parse streamOk (fun x => x.session_id = none)
    · exact fun c' s hc' => hc'
    · intro c' l hl hc'
      have hp := (processLine_session parse c' l (hln l hl)).1
      rw [hp, hc']
    · exact h0
  have hses : ∀ k, truthyStr (σ k).session_id = false := by
    intro k
    rw [hall (σ k) (hσ k)]
    rfl
  have hcn := connect_none σ hses
  refine ⟨by rw [hcn], by rw [hcn], ?_⟩
  intro τ hτ
  have hp : connectPoll τ 0 100 = connectPoll σ 0 100 :=
    connectPoll_local τ σ 100 0 (fun k hk => hτ k (by omega))
  unfold connect
  rw [hp]

/-- Constant sample used by the C2 witness: the reader has set `Connecting`
and will never see an endpoint frame (empty stream). -/
def c2sample : Nat → ClientState :=
  fun _ => { spawnReader (initClient "http://s") with state := ConnectionState.connecting }

/-- Witness for C2: on an empty stream the handshake times out, `connect`
returns `False` and the state machine reads `Error`. -/
theorem c2_connect_timeout_witness :
    (connect c2sample).1 = false ∧ (connect c2sample).2.state = ConnectionState.error :=
  have h := c2_connect_timeout (fun _ => none) true (initClient "http://s") [] c2sample
    rfl (fun _ => List.mem_cons_self _ _) (fun l hl => absurd hl (List.not_mem_nil l))
  ⟨h.1, h.2.1⟩

/-- C10: `disconnect()` closes the shared HTTP client and nothing recreates
it, so the client instance is single-use: after any `disconnect()`, every
`connect()` fails (the stream request dies on the closed client, so no
endpoint event can arrive and the poll times out with state `Error`) and
every `health_check()` returns `False` — for EVERY server behaviour `resp`,
even a reachable healthy server. -/
theorem c10_single_use (c : ClientState) (parse : String → Option Json)
    (streamOk : Bool) (lines : List String) (σ : Nat → ClientState)
    (resp : PostOutcome)
    (hσ : ∀ k, σ k ∈ readerStates parse streamOk (spawnReader (disconnect c)) lines) :
    (connect σ).1 = false ∧ (connect σ).2.state = ConnectionState.error ∧
    health_check (disconnect c) resp = false := by
  have hses : ∀ k, truthyStr (σ k).session_id = false := by
    intro k
    have hx := readerStates_closed_session parse streamOk (spawnReader (disconnect c))
      lines rfl (σ k) (hσ k)
    rw [hx]
    rfl
  have hcn := connect_none σ hses
  refine ⟨by rw [hcn], by rw [hcn], ?_⟩
  unfold health_check healthBody
  rfl

/-- Constant sample used by the C10 witness. -/
def c10sample : Nat → ClientState :=
  fun _ =>
    { spawnReader (disconnect (initClient "http://s")) with
      state := ConnectionState.connecting }

/-- Witness for C10: after disconnecting a fresh client, `connect` fails and
`health_check` returns `False` even against a healthy 200 response. -/
theorem c10_single_use_witness :
    (connect c10sample).1 = false ∧
    (connect c10sample).2.state = ConnectionState.error ∧
    health_check (disconnect (initClient "http://s"))
      (PostOutcome.response 200 (some (Json.obj [("status", Json.str "healthy")]))) =
      false :=
  c10_single_use (initClient "http://s") (fun _ => none) true [] c10sample
    (PostOutcome.response 200 (some (Json.obj [("status", Json.str "healthy")])))
    (fun _ => List.mem_cons_self _ _)

/-- A client that already holds an active session (successful earlier
`connect`): live reader task, session id `"abc"`. -/
def c9client : ClientState :=
  { server_url := "http://s"
    timeout := 30
    session_id := some "abc"
    message_endpoint := some "http://s/messages?sessionId=abc"
    state := ConnectionState.connected
    tools := []
    inited := true
    http_closed := false
    sse_task_live := true
    tasks_spawned := 1
    tasks_cancelled := 0 }

/-- The shared state right after the overlapping `connect` spawns its second
reader task (a legitimate sample of the new reader's trajectory, as the
membership conjunct below shows). -/
def c9sample : Nat → ClientState :=
  fun _ => { spawnReader c9client with state := ConnectionState.connecting }

/-- C9: evaluating a second `connect()` on a client that already holds an
active session.  The call performs no teardown and no rejection: it spawns a
second reader task (`tasks_spawned` becomes 2) without cancelling the first
(`tasks_cancelled` stays 0), keeps the stale session id `"abc"`, and returns
`True` immediately because the polling loop sees the old `session_id`
already set. -/
theorem c9_overlapping_connect :
    (connect c9sample).1 = true ∧
    (connect c9sample).2.session_id = some "abc" ∧
    (connect c9sample).2.message_endpoint = some "http://s/messages?sessionId=abc" ∧
    (connect c9sample).2.tasks_cancelled = 0 ∧
    (connect c9sample).2.tasks_spawned = 2 ∧
    c9sample 0 ∈ readerStates (fun _ => none) true (spawnReader c9client) [] := by
  have hc := connect_of_truthy c9sample rfl
  rw [hc]
  exact ⟨rfl, rfl, rfl, rfl, rfl, List.mem_cons_self _ _⟩

/-- C5: the dispatcher is resilient to malformed frames.  For every stream,
a `"data: "` line whose remainder fails JSON parsing is skipped without
terminating the stream (deleting it anywhere in the stream leaves the
reader's result unchanged), and subsequent valid events are still processed:
a stream of one invalid-JSON `data:` line followed by a valid endpoint event
ends with a truthy session id, and a `connect` that samples that final state
succeeds — the handshake still completes. -/
theorem c5_malformed_resilience (parse : String → Option Json) (bad : String)
    (hb1 : strStarts bad "data: " = true)
    (hb2 : parse (strDrop bad 6) = none) :
    (∀ (c : ClientState) (pre rest : List String),
        runReaderLines parse c (pre ++ bad :: rest) =
          runReaderLines parse c (pre ++ rest)) ∧
    (∀ (c : ClientState) (good uri : String),
        strStarts good "data: " = true →
        parse (strDrop good 6) = some (Json.obj (endpointEvent uri)) →
        2 ≤ (pySplit uri "sessionId=").length →
        extractSessionId uri ≠ "" →
        truthyStr (runReaderLines parse c [bad, good]).session_id = true ∧
        (connect (fun _ => runReaderLines parse c [bad, good])).1 = true) := by
  have hskip : ∀ c2 : ClientState, processLine parse c2 bad = (c2, true) := by
    intro c2
    unfold processLine
    rw [hb1, hb2]
    rfl
  have hdrop : ∀ (c : ClientState) (pre rest : List String),
      runReaderLines parse c (pre ++ bad :: rest) =
        runReaderLines parse c (pre ++ rest) := by
    intro c pre rest
    induction pre generalizing c with
    | nil =>
      show runReaderLines parse c (bad :: rest) = runReaderLines parse c rest
      simp only [runReaderLines, hskip c, if_true]
    | cons p ps ih =>
      show runReaderLines parse c (p :: (ps ++ bad :: rest)) =
        runReaderLines parse c (p :: (ps ++ rest))
      simp only [runReaderLines]
      by_cases hq : (processLine parse c p).2 = true
      · simp only [hq, if_true]
        exact ih _
      · simp only [Bool.not_eq_true] at hq
        simp only [hq, Bool.false_eq_true, if_false]
  refine ⟨hdrop, ?_⟩
  intro c good uri hg1 hg2 hg3 hg4
  have hset : eventSetsSession (endpointEvent uri) = true := decide_eq_true hg3
  have hhe : handle_event c (endpointEvent uri) =
      (sessionUpdate c (extractSessionId uri), none) :=
    handle_event_sets c (endpointEvent uri) hset
  have hpg : processLine parse c good =
      (sessionUpdate c (extractSessionId uri), true) := by
    unfold processLine
    rw [hg1, hg2]
    simp only [hhe, eq_self_iff_true, if_true]
  have hrun : runReaderLines parse c [bad, good] =
      sessionUpdate c (extractSessionId uri) := by
    have h1 : runReaderLines parse c [bad, good] = runReaderLines parse c [good] :=
      hdrop c [] [good]
    rw [h1]
    simp only [runReaderLines, hpg, if_true, ite_self]
  have htr : truthyStr (runReaderLines parse c [bad, good]).session_id = true := by
    rw [hrun]
    exact decide_eq_true hg4
  refine ⟨htr, ?_⟩
  have hcn := connect_of_truthy (fun _ => runReaderLines parse c [bad, good]) htr
  rw [hcn]

/-- Concrete `json.loads` oracle for the C5 witness: `"ep"` parses to a
valid endpoint event, everything else (in particular the malformed
remainder `"oops"`) fails to parse. -/
def c5parse : String → Option Json := fun s =>
  if s = "ep" then some (Json.obj (endpointEvent "/messages?sessionId=abc123"))
  else none

/-- Witness for C5: an invalid-JSON `data:` line followed by a valid
endpoint event still yields a successful handshake. -/
theorem c5_malformed_resilience_witness :
    truthyStr (runReaderLines c5parse (initClient "http://s")
        ["data: oops", "data: ep"]).session_id = true ∧
    (connect (fun _ => runReaderLines c5parse (initClient "http://s")
        ["data: oops", "data: ep"])).1 = true :=
  (c5_malformed_resilience c5parse "data: oops" (by decide) rfl).2
    (initClient "http://s") "data: ep" "/messages?sessionId=abc123"
    (by decide) rfl (by decide) (by decide)

/-- C1 counterexample: the code extracts the session id by splitting at the
FIRST occurrence of the substring `"sessionId="` anywhere in the URI, not by
parsing the query string.  For the endpoint event whose `params.uri` is
`"/messages?XsessionId=1&sessionId=2"`, the `sessionId` query parameter's
value is `"2"`, but `_handle_event` sets `session_id` to `"1"` (the text
after the first `"sessionId="`, which lies inside the unrelated parameter
key `XsessionId`) — so the handler does not set the session id to the
parameter's value. -/
theorem c1_counterexample :
    sessionIdParam "/messages?XsessionId=1&sessionId=2" = some "2" ∧
    (handle_event (initClient "http://s")
        (endpointEvent "/messages?XsessionId=1&sessionId=2")).1.session_id =
      some "1" ∧
    (handle_event (initClient "http://s")
        (endpointEvent "/messages?XsessionId=1&sessionId=2")).1.session_id ≠
      sessionIdParam "/messages?XsessionId=1&sessionId=2" :=
  ⟨by decide, by decide, by decide⟩

/-- C1 amended: (a) for every `"endpoint"` event whose `uri` contains the
substring `"sessionId="`, the handler sets `session_id` to the text between
the first occurrence of `"sessionId="` and the next `"&"` (which coincides
with the `sessionId` query parameter's value whenever that first occurrence
is the parameter itself, but can differ — see the counterexample) and sets
`message_endpoint` to the base URL's `/messages` path with exactly that
value attached as the `sessionId` query parameter; (b) no other event type
mutates the session fields; (c) consequently, after a successful
`connect()`, `session_id` is a non-empty string and `message_endpoint` is
the non-empty string consisting of the server URL's `/messages` path with
that session id attached as its `sessionId` query parameter. -/
theorem c1_amended :
    (∀ (c : ClientState) (uri : String), 2 ≤ (pySplit uri "sessionId=").length →
        handle_event c (endpointEvent uri) =
          (sessionUpdate c (extractSessionId uri), none)) ∧
    (∀ (c : ClientState) (ev : List (String × Json)),
        jEqStr (assocLookup "method" ev) "endpoint" = false →
        (handle_event c ev).1.session_id = c.session_id ∧
        (handle_event c ev).1.message_endpoint = c.message_endpoint) ∧
    (∀ (parse : String → Option Json) (streamOk : Bool) (c : ClientState)
        (lines : List String) (σ : Nat → ClientState),
        c.session_id = none →
        (∀ k, σ k ∈ readerStates parse streamOk (spawnReader c) lines) →
        (connect σ).1 = true →
        ∃ sid, (connect σ).2.session_id = some sid ∧ sid ≠ "" ∧
          (connect σ).2.message_endpoint =
            some ((connect σ).2.server_url ++ "/messages?sessionId=" ++ sid) ∧
          truthyStr (connect σ).2.message_endpoint = true) := by
  refine ⟨?_, ?_, ?_⟩
  · intro c uri h
    exact handle_event_sets c (endpointEvent uri) (decide_eq_true h)
  · intro c ev h
    have hses : eventSetsSession ev = false := by
      unfold eventSetsSession
      rw [h, Bool.false_and]
    rw [handle_event_not_sets c ev hses]
    exact ⟨rfl, rfl⟩
  · intro parse streamOk c lines σ h0 hσ hsucc
    have hinv : ∀ x ∈ readerStates parse streamOk (spawnReader c) lines,
        sessInv x := by
      apply readerStates_all parse streamOk sessInv
      · exact fun c' s hc' sid hs => hc' sid hs
      · exact fun c' l _ hc' => processLine_sessInv parse c' l hc'
      · intro sid hs
        have hs2 : c.session_id = some sid := hs
        rw [h0] at hs2
        exact Option.noConfusion hs2
    obtain ⟨hstate, htr⟩ := connect_true σ hsucc
    obtain ⟨k, hk⟩ := connectPoll_mem σ 100 0
    have hfinv : sessInv (connectPoll σ 0 100) := by
      rw [hk]
      exact hinv (σ k) (hσ k)
    rw [hstate]
    cases hss : (connectPoll σ 0 100).session_id with
    | none =>
      rw [hss] at htr
      exact absurd htr (by simp [truthyStr])
    | some sid =>
      rw [hss] at htr
      have hne : sid ≠ "" := of_decide_eq_true htr
      refine ⟨sid, rfl, hne, hfinv sid hss, ?_⟩
      rw [hfinv sid hss]
      exact truthy_msg _ sid

/-- Witness for C1's amended theorem: part (a) at a plain wire-protocol
endpoint URI. -/
theorem c1_amended_witness :
    handle_event (initClient "http://s") (endpointEvent "/messages?sessionId=w1") =
      (sessionUpdate (initClient "http://s")
        (extractSessionId "/messages?sessionId=w1"), none) :=
  c1_amended.1 (initClient "http://s") "/messages?sessionId=w1" (by decide)
